import Mathlib

/- A shallow embedding of src/apps/frontend/src/pages/exit/ExitOutPage.jsx,
   the ExitOut stack management page.  Component state, the three async
   handlers (fetchStack, releaseTeam, clearStack), the showToast helper,
   the auto-refresh effect and the rendered view are modelled as pure
   functions.  Asynchronous request outcomes are passed in explicitly, and
   JavaScript exceptions are modelled with Except: each handler consists of
   a try body that may return an error, a catch clause, and a finally
   clause, so that catching behaviour is part of the model rather than
   assumed.  Handlers also emit a list of observable effects (endpoint
   calls, toasts shown, loading-flag writes). -/

namespace ExitOut

/-- Server stats object of the stack response (spec section 3). -/
structure Stats where
  totalTeams : Nat
  totalCards : Nat
deriving Repr, DecidableEq

/-- One entry of the stack array of the stack response (spec section 3). -/
structure StackEntry where
  registrationId : String
  cardCount : Nat
  cards : List String
deriving Repr, DecidableEq

/-- Toast type, the second argument of showToast. -/
inductive ToastType
  | info
  | success
  | error
deriving Repr, DecidableEq

/-- Toast state, set by showToast (line 92). -/
structure Toast where
  message : String
  type : ToastType
deriving Repr, DecidableEq

/-- Component state: the seven useState hooks of ExitOutPage (lines 9 to 15).
    The JavaScript Set of releasing ids is modelled as a Finset String. -/
structure PageState where
  stack : List StackEntry
  stats : Stats
  loading : Bool
  releasing : Finset String
  toast : Option Toast
  autoRefresh : Bool
  confirmingId : Option String
deriving DecidableEq

/-- Body shape of GET /api/exitout/stack.  Fields that the code guards with
    a default (response.stack, response.stats) are Options, so that a
    response missing them is representable. -/
structure StackResponse where
  success : Bool
  stack : Option (List StackEntry)
  stats : Option Stats
  error : Option String
deriving Repr, DecidableEq

/-- Outcome of awaiting the stack request: a response, or a rejection
    (network error) thrown at the await. -/
inductive FetchOutcome
  | resp (r : StackResponse)
  | thrown
deriving Repr, DecidableEq

/-- Observable effects emitted by the handlers. -/
inductive Eff
  | fetchCall
  | releaseCall (registrationId : String)
  | clearCall
  | toast (t : Toast)
  | loadingSet (value : Bool)
deriving Repr, DecidableEq

/-- JavaScript exceptions that can arise in the handler bodies. -/
inductive JsError
  | network
  | typeError
deriving Repr, DecidableEq

/-- showToast (lines 91 to 94): sets the toast state and emits a toast
    effect.  The setTimeout auto-dismissal is modelled separately in the
    timed toast model below. -/
def showToastE (message : String) (type : ToastType) (s : PageState) :
    PageState × List Eff :=
  ({ s with toast := some ⟨message, type⟩ }, [Eff.toast ⟨message, type⟩])

/-- The try block of fetchStack (lines 19 to 27).  On success the stack and
    stats state are replaced, with defaults for missing fields as in
    response.stack or [] and response.stats or the zero stats. -/
def fetchTryBody (o : FetchOutcome) (s : PageState) :
    Except JsError (PageState × List Eff) :=
  match o with
  | .thrown => .error .network
  | .resp r =>
      if r.success then
        .ok ({ s with stack := r.stack.getD [], stats := r.stats.getD ⟨0, 0⟩ }, [])
      else
        .ok (showToastE "Failed to fetch stack data" .error s)

/-- fetchStack (lines 18 to 34) with its catch and finally clauses, as an
    Except so that it is visible that no exception escapes. -/
def fetchStackExc (o : FetchOutcome) (s : PageState) :
    Except JsError (PageState × List Eff) :=
  let afterTry : Except JsError (PageState × List Eff) :=
    match fetchTryBody o s with
    | .ok se => .ok se
    | .error _ => .ok (showToastE "Error connecting to server" .error s)
  match afterTry with
  | .ok (s1, effs) =>
      .ok ({ s1 with loading := false }, Eff.fetchCall :: (effs ++ [Eff.loadingSet false]))
  | .error e => .error e

/-- fetchStack as a total function on states; the error branch is
    unreachable (fetchStackExc always returns ok). -/
def fetchStack (o : FetchOutcome) (s : PageState) : PageState × List Eff :=
  match fetchStackExc o s with
  | .ok se => se
  | .error _ => (s, [])

/-- Result object of POST /api/exitout/release/:id. -/
structure ReleaseResult where
  released : Nat
deriving Repr, DecidableEq

/-- Body shape of POST /api/exitout/release/:id.  The result field is an
    Option: the code reads response.result.released without a guard, so a
    missing result matters. -/
structure ReleaseResponse where
  success : Bool
  result : Option ReleaseResult
  error : Option String
deriving Repr, DecidableEq

/-- Outcome of awaiting the release request; on the success path the code
    awaits fetchStack, whose own outcome is fetchAfter. -/
inductive ReleaseOutcome
  | resp (r : ReleaseResponse) (fetchAfter : FetchOutcome)
  | thrown
deriving Repr, DecidableEq

/-- The try block of releaseTeam (lines 40 to 53).  Reading
    response.result.released when result is missing throws a TypeError
    inside the try block. -/
def releaseTryBody (registrationId : String) (o : ReleaseOutcome) (s : PageState) :
    Except JsError (PageState × List Eff) :=
  match o with
  | .thrown => .error .network
  | .resp r fetchAfter =>
      if r.success then
        match r.result with
        | none => .error .typeError
        | some res =>
            let (s1, e1) := showToastE
              ("Successfully released " ++ toString res.released ++
                " cards for team " ++ registrationId)
              .success s
            let (s2, e2) := fetchStack fetchAfter s1
            .ok (s2, e1 ++ e2)
      else
        .ok (showToastE
          ("Failed to release team " ++ registrationId ++ ": " ++ r.error.getD "undefined")
          .error s)

/-- releaseTeam (lines 37 to 64): adds the id to the releasing set, runs the
    try body, catches any error with an error toast, and in the finally
    clause deletes the id from the releasing set. -/
def releaseTeamExc (registrationId : String) (o : ReleaseOutcome) (s : PageState) :
    Except JsError (PageState × List Eff) :=
  let s0 : PageState := { s with releasing := insert registrationId s.releasing }
  let afterTry : Except JsError (PageState × List Eff) :=
    match releaseTryBody registrationId o s0 with
    | .ok se => .ok se
    | .error _ => .ok (showToastE ("Error releasing team " ++ registrationId) .error s0)
  match afterTry with
  | .ok (s1, effs) =>
      .ok ({ s1 with releasing := s1.releasing.erase registrationId },
           Eff.releaseCall registrationId :: effs)
  | .error e => .error e

/-- releaseTeam as a total function on states; the error branch is
    unreachable (releaseTeamExc always returns ok). -/
def releaseTeam (registrationId : String) (o : ReleaseOutcome) (s : PageState) :
    PageState × List Eff :=
  match releaseTeamExc registrationId o s with
  | .ok se => se
  | .error _ => (s, [])

/-- Body shape of POST /api/exitout/clear. -/
structure ClearResponse where
  success : Bool
  error : Option String
deriving Repr, DecidableEq

/-- Outcome of awaiting the clear request; on the success path the code
    awaits fetchStack, whose own outcome is fetchAfter. -/
inductive ClearOutcome
  | resp (r : ClearResponse) (fetchAfter : FetchOutcome)
  | thrown
deriving Repr, DecidableEq

/-- The try block of clearStack (lines 73 to 84). -/
def clearTryBody (o : ClearOutcome) (s : PageState) :
    Except JsError (PageState × List Eff) :=
  match o with
  | .thrown => .error .network
  | .resp r fetchAfter =>
      if r.success then
        let (s1, e1) := showToastE "Stack cleared successfully" .success s
        let (s2, e2) := fetchStack fetchAfter s1
        .ok (s2, e1 ++ e2)
      else
        .ok (showToastE ("Failed to clear stack: " ++ r.error.getD "undefined") .error s)

/-- clearStack (lines 67 to 88): the confirmed argument is the value of the
    blocking window.confirm; on decline the handler returns before any state
    change.  On accept it sets loading, runs the try body, catches errors
    with an error toast, and clears loading in the finally clause. -/
def clearStackExc (confirmed : Bool) (o : ClearOutcome) (s : PageState) :
    Except JsError (PageState × List Eff) :=
  if confirmed then
    let s0 : PageState := { s with loading := true }
    let afterTry : Except JsError (PageState × List Eff) :=
      match clearTryBody o s0 with
      | .ok se => .ok se
      | .error _ => .ok (showToastE "Error clearing stack" .error s0)
    match afterTry with
    | .ok (s1, effs) =>
        .ok ({ s1 with loading := false },
             Eff.loadingSet true :: Eff.clearCall :: (effs ++ [Eff.loadingSet false]))
    | .error e => .error e
  else
    .ok (s, [])

/-- clearStack as a total function on states; the error branch is
    unreachable (clearStackExc always returns ok). -/
def clearStack (confirmed : Bool) (o : ClearOutcome) (s : PageState) :
    PageState × List Eff :=
  match clearStackExc confirmed o s with
  | .ok se => se
  | .error _ => (s, [])

/-- Rendered view of one stack row (lines 181 to 211): id, card count, at
    most three visible card badges, an optional more badge, and the release
    button disabled flag and label. -/
structure RowView where
  registrationId : String
  cardCount : Nat
  visibleBadges : List String
  moreBadge : Option Nat
  releaseDisabled : Bool
  releaseLabel : String
deriving Repr, DecidableEq

/-- Rendering of one stack item (lines 181 to 211). -/
def renderRow (releasing : Finset String) (item : StackEntry) : RowView :=
  { registrationId := item.registrationId
    cardCount := item.cardCount
    visibleBadges := item.cards.take 3
    moreBadge := if item.cards.length > 3 then some (item.cards.length - 3) else none
    releaseDisabled := decide (item.registrationId ∈ releasing)
    releaseLabel :=
      if item.registrationId ∈ releasing then "Releasing..." else "Release All" }

/-- The page view: either the early loader (line 106) or the main view with
    the disabled flags of the Refresh and Clear All Stack buttons and the
    rendered rows. -/
inductive PageView
  | loader
  | main (clearDisabled : Bool) (refreshDisabled : Bool) (refreshLabel : String)
      (rows : List RowView)
deriving Repr, DecidableEq

/-- The render function of ExitOutPage (lines 106 to 262).  The Clear All
    Stack button is disabled when loading or stats.totalCards equals 0
    (line 159). -/
def render (s : PageState) : PageView :=
  if s.loading && s.stack.isEmpty then
    .loader
  else
    .main (s.loading || (s.stats.totalCards == 0))
          s.loading
          (if s.loading then "Refreshing..." else "Refresh")
          (s.stack.map (renderRow s.releasing))

/-- The Teams with Stacked Cards figure (line 124). -/
def renderedTeamsFigure (s : PageState) : Nat := s.stats.totalTeams

/-- The Total Stacked Cards figure (line 128). -/
def renderedCardsFigure (s : PageState) : Nat := s.stats.totalCards

/-- The Average Cards per Team cell (line 133) either renders the literal
    zero string or performs the division totalCards / totalTeams. -/
inductive AvgDisplay
  | zeroLiteral
  | ratio (numerator denominator : Nat)
deriving Repr, DecidableEq

/-- Line 133: stats.totalCards > 0 guards the division; otherwise the
    literal zero string is rendered. -/
def averageDisplay (st : Stats) : AvgDisplay :=
  if st.totalCards > 0 then .ratio st.totalCards st.totalTeams else .zeroLiteral

/-- Whether the average cell performs a division at all. -/
def averagePerformsDivision (st : Stats) : Bool :=
  match averageDisplay st with
  | .ratio _ _ => true
  | .zeroLiteral => false

/-- Whether the average cell performs a division with denominator zero. -/
def averageDividesByZero (st : Stats) : Bool :=
  match averageDisplay st with
  | .ratio _ 0 => true
  | _ => false

/- ---------------------------------------------------------------------
   Auto-refresh timer model (lines 97 to 104).  The useEffect with the
   autoRefresh dependency runs its body on mount and again whenever the
   autoRefresh value changes, after running the previous cleanup; the body
   always calls fetchStack once and, when autoRefresh holds, starts a
   3000 ms interval; the cleanup clears the interval; unmount runs the
   cleanup.  React skips the re-run when the state value did not change.
   --------------------------------------------------------------------- -/

/-- Fixed polling interval of line 101, in milliseconds. -/
def refreshIntervalMs : Nat := 3000

/-- Timer-level observable effects: a fetch call (flagged when it came from
    the interval firing), interval creation with its delay, and interval
    cancellation. -/
inductive TimerEff
  | fetch (fromInterval : Bool)
  | intervalSet (ms : Nat)
  | intervalCleared
deriving Repr, DecidableEq

/-- Lifecycle state of the effect: mounted flag, current autoRefresh state
    value, and whether an interval is currently scheduled. -/
structure TimerState where
  mounted : Bool
  autoRefresh : Bool
  intervalActive : Bool
deriving Repr, DecidableEq

/-- Lifecycle events: mount, checkbox toggle to a value, an interval tick
    firing, unmount. -/
inductive UiEvent
  | mount
  | toggle (value : Bool)
  | tick
  | unmount
deriving Repr, DecidableEq

/-- Running the effect body after its cleanup (lines 97 to 104): clear any
    previous interval, call fetchStack once, and start the interval when
    autoRefresh holds. -/
def runEffect (st : TimerState) : TimerState × List TimerEff :=
  let cleanupEffs := if st.intervalActive then [TimerEff.intervalCleared] else []
  if st.autoRefresh then
    ({ st with intervalActive := true },
     cleanupEffs ++ [TimerEff.fetch false, TimerEff.intervalSet refreshIntervalMs])
  else
    ({ st with intervalActive := false }, cleanupEffs ++ [TimerEff.fetch false])

/-- One lifecycle step.  A toggle to the current value is skipped (React
    bails out when state is unchanged); a tick calls fetchStack only while
    an interval is scheduled; unmount runs the cleanup. -/
def timerStep (st : TimerState) (e : UiEvent) : TimerState × List TimerEff :=
  match e with
  | .mount =>
      if st.mounted then (st, [])
      else runEffect { st with mounted := true }
  | .toggle value =>
      if st.mounted && (value != st.autoRefresh) then
        runEffect { st with autoRefresh := value }
      else (st, [])
  | .tick =>
      if st.intervalActive then (st, [TimerEff.fetch true]) else (st, [])
  | .unmount =>
      if st.mounted then
        ({ st with mounted := false, intervalActive := false },
         if st.intervalActive then [TimerEff.intervalCleared] else [])
      else (st, [])

/-- Initial lifecycle state: not mounted, autoRefresh initialised to true
    (line 14), no interval. -/
def initialTimer : TimerState := ⟨false, true, false⟩

/- ---------------------------------------------------------------------
   Releasing-set trace model for the busy-team invariant.  A release call
   starts (the button onClick at line 206, only reachable while the button
   is enabled, that is while the id is not in the releasing set) and later
   resolves.  The component set mirrors lines 38 and 58 to 62; the ghost
   inFlight list records the calls started and not yet resolved.
   --------------------------------------------------------------------- -/

/-- A trace event: a release call starting or resolving for an id. -/
inductive TraceEvent
  | start (registrationId : String)
  | finish (registrationId : String)
deriving Repr, DecidableEq

/-- Releasing set as the component keeps it, next to the ghost list of
    calls actually in flight. -/
structure RelTrace where
  releasing : Finset String
  inFlight : List String
deriving DecidableEq

/-- Effect of one event: start inserts into the set (line 38) and pushes
    the ghost call; finish deletes from the set (lines 58 to 62) and pops
    the ghost call. -/
def relStep (st : RelTrace) (e : TraceEvent) : RelTrace :=
  match e with
  | .start registrationId =>
      ⟨insert registrationId st.releasing, registrationId :: st.inFlight⟩
  | .finish registrationId =>
      ⟨st.releasing.erase registrationId, st.inFlight.erase registrationId⟩

/-- A trace is well formed when every start comes from an enabled button
    (id not already in the releasing set, line 207) and every finish
    resolves a call actually in flight. -/
def relWf : RelTrace → List TraceEvent → Bool
  | _, [] => true
  | st, e :: es =>
      (match e with
       | .start registrationId => decide (registrationId ∉ st.releasing)
       | .finish registrationId => st.inFlight.contains registrationId)
      && relWf (relStep st e) es

/-- Folding a trace over the step function. -/
def runRel (st : RelTrace) (tr : List TraceEvent) : RelTrace :=
  tr.foldl relStep st

/-- Initial trace state: empty set (line 12), nothing in flight. -/
def initialRel : RelTrace := ⟨∅, []⟩

/- ---------------------------------------------------------------------
   Timed toast model for showToast (lines 91 to 94).  Each show event at
   time t sets the toast and schedules a timeout at t + 5000 that sets the
   toast to null unconditionally.  Events are processed in time order.
   --------------------------------------------------------------------- -/

/-- Fixed auto-dismiss delay of line 93, in milliseconds. -/
def toastDelayMs : Nat := 5000

/-- A timed event: a showToast call or a scheduled timeout firing. -/
inductive ToastEvent
  | show (message : String)
  | fire
deriving Repr, DecidableEq

/-- Merge two time-sorted event lists, earlier first; on equal times the
    left list goes first.  Structural recursion through a fuel argument so
    that concrete runs reduce definitionally. -/
def mergeEventsFuel :
    Nat → List (Nat × ToastEvent) → List (Nat × ToastEvent) → List (Nat × ToastEvent)
  | 0, xs, ys => xs ++ ys
  | _ + 1, [], ys => ys
  | _ + 1, x :: xs, [] => x :: xs
  | fuel + 1, x :: xs, y :: ys =>
      if x.1 ≤ y.1 then x :: mergeEventsFuel fuel xs (y :: ys)
      else y :: mergeEventsFuel fuel (x :: xs) ys

/-- Merge with enough fuel for both lists. -/
def mergeEvents (xs ys : List (Nat × ToastEvent)) : List (Nat × ToastEvent) :=
  mergeEventsFuel (xs.length + ys.length) xs ys

/-- The timed event list of a list of show calls given as pairs of time and
    message (assumed time sorted): the shows themselves merged with the
    timeout each one schedules toastDelayMs later. -/
def toastEvents (shows : List (Nat × String)) : List (Nat × ToastEvent) :=
  mergeEvents (shows.map fun p => (p.1, ToastEvent.show p.2))
    (shows.map fun p => (p.1 + toastDelayMs, ToastEvent.fire))

/-- Simulation state: the toast on display with the time it appeared, and a
    log recording, for each toast that has ended, its message, the time it
    was shown and the time it stopped being displayed. -/
structure ToastRun where
  current : Option (Nat × String)
  log : List (String × Nat × Nat)
deriving Repr, DecidableEq

/-- Processing one timed event: a show replaces the current toast (logging
    the replaced one); a timeout firing sets the toast to null whatever is
    displayed, exactly as the closure at line 93 does. -/
def toastStep (st : ToastRun) (e : Nat × ToastEvent) : ToastRun :=
  match e.2 with
  | .show m =>
      match st.current with
      | some (shownAt, m0) => ⟨some (e.1, m), st.log ++ [(m0, shownAt, e.1)]⟩
      | none => ⟨some (e.1, m), st.log⟩
  | .fire =>
      match st.current with
      | some (shownAt, m0) => ⟨none, st.log ++ [(m0, shownAt, e.1)]⟩
      | none => st

/-- Full simulation of a time-sorted list of showToast calls. -/
def runToasts (shows : List (Nat × String)) : ToastRun :=
  (toastEvents shows).foldl toastStep ⟨none, []⟩

/-- A concrete page state used by the witnesses: the initial hook values of
    lines 9 to 15 except that loading is already false. -/
def sampleState : PageState :=
  { stack := [], stats := ⟨0, 0⟩, loading := false, releasing := ∅,
    toast := none, autoRefresh := true, confirmingId := none }

/-- A fetch outcome fails when the request rejects or the response carries
    success equal to false (spec section 7). -/
def FetchFails (o : FetchOutcome) : Prop :=
  o = FetchOutcome.thrown ∨ ∃ r, o = FetchOutcome.resp r ∧ r.success = false

/-- fetchStack never touches the releasing set. -/
theorem fetchStack_preserves_releasing (o : FetchOutcome) (s : PageState) :
    (fetchStack o s).1.releasing = s.releasing := by
  cases o with
  | thrown => rfl
  | resp r =>
      cases hr : r.success <;>
        simp [fetchStack, fetchStackExc, fetchTryBody, showToastE, hr]

/-- fetchStack always emits its endpoint call. -/
theorem fetchStack_emits_call (o : FetchOutcome) (s : PageState) :
    Eff.fetchCall ∈ (fetchStack o s).2 := by
  cases o with
  | thrown => simp [fetchStack, fetchStackExc, fetchTryBody, showToastE]
  | resp r =>
      cases hr : r.success <;>
        simp [fetchStack, fetchStackExc, fetchTryBody, showToastE, hr]

/-- fetchStackExc never returns an error. -/
theorem fetchStackExc_isOk (o : FetchOutcome) (s : PageState) :
    fetchStackExc o s = Except.ok (fetchStack o s) := by
  cases o with
  | thrown => rfl
  | resp r =>
      cases hr : r.success <;>
        simp [fetchStack, fetchStackExc, fetchTryBody, showToastE, hr]

/-- releaseTeamExc never returns an error. -/
theorem releaseTeamExc_isOk (registrationId : String) (o : ReleaseOutcome)
    (s : PageState) :
    releaseTeamExc registrationId o s =
      Except.ok (releaseTeam registrationId o s) := by
  cases o with
  | thrown => rfl
  | resp r fetchAfter =>
      cases hr : r.success
      · simp [releaseTeam, releaseTeamExc, releaseTryBody, showToastE, hr]
      · cases hres : r.result with
        | none => simp [releaseTeam, releaseTeamExc, releaseTryBody, showToastE, hr, hres]
        | some res => simp [releaseTeam, releaseTeamExc, releaseTryBody, showToastE, hr, hres]

/-- clearStackExc never returns an error. -/
theorem clearStackExc_isOk (confirmed : Bool) (o : ClearOutcome) (s : PageState) :
    clearStackExc confirmed o s = Except.ok (clearStack confirmed o s) := by
  cases confirmed
  · rfl
  · cases o with
    | thrown => rfl
    | resp r fetchAfter =>
        cases hr : r.success <;>
          simp [clearStack, clearStackExc, clearTryBody, showToastE, hr]

/-- Claim C1: for every stack response with success equal to true, the
    displayed Teams with Stacked Cards and Total Stacked Cards figures equal
    the stats fields of the response exactly; when the response omits the
    stats field, the code substitutes the guarded default, so the figures
    read 0 and 0. -/
theorem claim1_success_stats_displayed (r : StackResponse) (s : PageState)
    (hs : r.success = true) :
    (∀ st : Stats, r.stats = some st →
        renderedTeamsFigure (fetchStack (FetchOutcome.resp r) s).1 = st.totalTeams ∧
        renderedCardsFigure (fetchStack (FetchOutcome.resp r) s).1 = st.totalCards) ∧
    (r.stats = none →
        renderedTeamsFigure (fetchStack (FetchOutcome.resp r) s).1 = 0 ∧
        renderedCardsFigure (fetchStack (FetchOutcome.resp r) s).1 = 0) := by
  constructor
  · intro st hst
    simp [fetchStack, fetchStackExc, fetchTryBody, hs, hst,
      renderedTeamsFigure, renderedCardsFigure]
  · intro hst
    simp [fetchStack, fetchStackExc, fetchTryBody, hs, hst,
      renderedTeamsFigure, renderedCardsFigure]

/-- Witness for claim C1 at a concrete successful response with stats
    totalTeams 2 and totalCards 5. -/
theorem claim1_success_stats_displayed_witness :
    renderedTeamsFigure
        (fetchStack (FetchOutcome.resp ⟨true, none, some ⟨2, 5⟩, none⟩) sampleState).1 = 2 ∧
    renderedCardsFigure
        (fetchStack (FetchOutcome.resp ⟨true, none, some ⟨2, 5⟩, none⟩) sampleState).1 = 5 :=
  (claim1_success_stats_displayed ⟨true, none, some ⟨2, 5⟩, none⟩ sampleState rfl).1 ⟨2, 5⟩ rfl

/-- Claim C2: whatever the outcome of the release call, after releaseTeam
    completes the team identifier is not in the releasing set: the finally
    clause always deletes it. -/
theorem claim2_release_always_clears_marker (registrationId : String)
    (o : ReleaseOutcome) (s : PageState) :
    registrationId ∉ (releaseTeam registrationId o s).1.releasing := by
  cases o with
  | thrown => simp [releaseTeam, releaseTeamExc, releaseTryBody, showToastE]
  | resp r fetchAfter =>
      cases hr : r.success
      · simp [releaseTeam, releaseTeamExc, releaseTryBody, showToastE, hr]
      · cases hres : r.result with
        | none => simp [releaseTeam, releaseTeamExc, releaseTryBody, showToastE, hr, hres]
        | some res => simp [releaseTeam, releaseTeamExc, releaseTryBody, showToastE, hr, hres]

/-- Claim C3: a failing stack fetch leaves stack, stats and every other
    state component except loading and the toast unchanged, turns loading
    off, and shows an error toast. -/
theorem claim3_fetch_failure_frame (o : FetchOutcome) (s : PageState)
    (h : FetchFails o) :
    (fetchStack o s).1.stack = s.stack ∧
    (fetchStack o s).1.stats = s.stats ∧
    (fetchStack o s).1.releasing = s.releasing ∧
    (fetchStack o s).1.autoRefresh = s.autoRefresh ∧
    (fetchStack o s).1.confirmingId = s.confirmingId ∧
    (fetchStack o s).1.loading = false ∧
    (∃ message, (fetchStack o s).1.toast = some ⟨message, ToastType.error⟩) := by
  rcases h with h | ⟨r, rfl, hr⟩
  · subst h
    exact ⟨rfl, rfl, rfl, rfl, rfl, rfl, "Error connecting to server", rfl⟩
  · refine ⟨?_, ?_, ?_, ?_, ?_, ?_, "Failed to fetch stack data", ?_⟩ <;>
      simp [fetchStack, fetchStackExc, fetchTryBody, showToastE, hr]

/-- Witness for claim C3 at a concrete response with success equal to
    false, starting from a state with stats totalTeams 3 and totalCards 7. -/
theorem claim3_fetch_failure_frame_witness :
    (fetchStack (FetchOutcome.resp ⟨false, none, none, some "boom"⟩)
        { sampleState with stats := ⟨3, 7⟩ }).1.stats = ⟨3, 7⟩ :=
  (claim3_fetch_failure_frame (FetchOutcome.resp ⟨false, none, none, some "boom"⟩)
    { sampleState with stats := ⟨3, 7⟩ }
    (Or.inr ⟨⟨false, none, none, some "boom"⟩, rfl, rfl⟩)).2.1

/-- Claim C5: whenever stats.totalCards equals 0, the main view renders the
    Clear All Stack button disabled. -/
theorem claim5_clear_disabled_when_empty (s : PageState)
    (h : s.stats.totalCards = 0) :
    ∀ (clearDisabled refreshDisabled : Bool) (refreshLabel : String)
      (rows : List RowView),
      render s = PageView.main clearDisabled refreshDisabled refreshLabel rows →
      clearDisabled = true := by
  intro cd rd rl rows hmain
  unfold render at hmain
  split at hmain
  · exact absurd hmain (by simp)
  · rw [PageView.main.injEq] at hmain
    rw [← hmain.1, h]
    simp

/-- Witness for claim C5 at a concrete state with totalCards 0 whose main
    view is rendered. -/
theorem claim5_clear_disabled_when_empty_witness : (true : Bool) = true :=
  claim5_clear_disabled_when_empty sampleState rfl true false "Refresh" [] rfl

/-- Claim C10: the Average Cards per Team cell divides exactly when
    stats.totalCards is positive and renders the zero literal otherwise; the
    division has a zero denominator exactly when the server invariant that
    positive totalCards forces positive totalTeams fails, and the guard
    itself does not exclude totalTeams equal to 0, shown at stats with
    totalTeams 0 and totalCards 5. -/
theorem claim10_average_division_guard :
    ∀ st : Stats,
      (averagePerformsDivision st = true ↔ 0 < st.totalCards) ∧
      (averageDividesByZero st = false ↔ (0 < st.totalCards → 0 < st.totalTeams)) ∧
      averageDividesByZero ⟨0, 5⟩ = true ∧
      averageDisplay ⟨0, 0⟩ = AvgDisplay.zeroLiteral := by
  intro st
  obtain ⟨teams, cards⟩ := st
  refine ⟨?_, ?_, by decide, by decide⟩ <;>
    cases cards <;> cases teams <;>
      simp [averageDisplay, averagePerformsDivision, averageDividesByZero]

/-- Claim C4 counterexample: from the mounted state with auto-refresh on,
    toggling auto-refresh off re-runs the effect, which issues an immediate
    fetch, contradicting the claim that no fetch is issued by the toggle
    itself. -/
theorem claim4_counterexample :
    TimerEff.fetch false ∈
      (timerStep (timerStep initialTimer UiEvent.mount).1 (UiEvent.toggle false)).2 := by
  decide

/-- Claim C4 amended: toggling auto-refresh off cancels the interval and,
    because the effect re-runs, issues one immediate fetch; after it, ticks
    produce no fetch; toggling back on issues an immediate fetch and
    restarts the 3000 ms interval, after which ticks fetch again; unmounting
    leaves no interval active. -/
theorem claim4_amended_toggle_semantics (st : TimerState) (hm : st.mounted = true) :
    (st.autoRefresh = true →
        (timerStep st (UiEvent.toggle false)).1.intervalActive = false ∧
        TimerEff.fetch false ∈ (timerStep st (UiEvent.toggle false)).2 ∧
        (timerStep (timerStep st (UiEvent.toggle false)).1 UiEvent.tick).2 = []) ∧
    (st.autoRefresh = false →
        (timerStep st (UiEvent.toggle true)).1.intervalActive = true ∧
        TimerEff.intervalSet refreshIntervalMs ∈ (timerStep st (UiEvent.toggle true)).2 ∧
        TimerEff.fetch false ∈ (timerStep st (UiEvent.toggle true)).2 ∧
        (timerStep (timerStep st (UiEvent.toggle true)).1 UiEvent.tick).2 =
          [TimerEff.fetch true]) ∧
    (timerStep st UiEvent.unmount).1.intervalActive = false := by
  obtain ⟨m, ar, ia⟩ := st
  cases m
  · simp at hm
  · revert ar ia
    decide

/-- Witness for the amended claim C4 at the concrete mounted state with
    auto-refresh on and an active interval. -/
theorem claim4_amended_toggle_semantics_witness :
    (timerStep (⟨true, true, true⟩ : TimerState) (UiEvent.toggle false)).1.intervalActive
      = false :=
  ((claim4_amended_toggle_semantics ⟨true, true, true⟩ rfl).1 rfl).1

/-- Claim C6 counterexample: an accepted confirmation whose clear request
    returns success equal to false shows an error toast but triggers no
    re-fetch, contradicting the claim that every accepted confirmation
    triggers a re-fetch. -/
theorem claim6_counterexample :
    Eff.fetchCall ∉
      (clearStack true (ClearOutcome.resp ⟨false, some "boom"⟩ FetchOutcome.thrown)
        sampleState).2 := by
  decide

/-- Claim C6 amended: a declined confirmation leaves the whole state
    untouched and issues nothing; an accepted confirmation sets the
    page-wide loading state, invokes the clear endpoint and shows a toast,
    and triggers a re-fetch exactly when the clear succeeds. -/
theorem claim6_amended_clear_contract (o : ClearOutcome) (s : PageState) :
    clearStack false o s = (s, []) ∧
    Eff.loadingSet true ∈ (clearStack true o s).2 ∧
    Eff.clearCall ∈ (clearStack true o s).2 ∧
    (∃ t, Eff.toast t ∈ (clearStack true o s).2) ∧
    (∀ r fetchAfter, o = ClearOutcome.resp r fetchAfter → r.success = true →
        Eff.fetchCall ∈ (clearStack true o s).2) ∧
    ((o = ClearOutcome.thrown ∨
        ∃ r fetchAfter, o = ClearOutcome.resp r fetchAfter ∧ r.success = false) →
        Eff.fetchCall ∉ (clearStack true o s).2) := by
  refine ⟨rfl, ?_, ?_, ?_, ?_, ?_⟩ <;>
    cases o with
    | thrown => simp [clearStack, clearStackExc, clearTryBody, showToastE]
    | resp r fetchAfter =>
        cases hr : r.success <;>
          simp [clearStack, clearStackExc, clearTryBody, showToastE, hr,
            fetchStack_emits_call]

/-- Witness for the amended claim C6: the accepted path at a successful
    concrete clear response does trigger the re-fetch. -/
theorem claim6_amended_clear_contract_witness :
    Eff.fetchCall ∈
      (clearStack true (ClearOutcome.resp ⟨true, none⟩ FetchOutcome.thrown)
        sampleState).2 :=
  ((claim6_amended_clear_contract (ClearOutcome.resp ⟨true, none⟩ FetchOutcome.thrown)
      sampleState).2.2.2.2.1) ⟨true, none⟩ FetchOutcome.thrown rfl rfl

/-- Invariant of the releasing trace: the ghost in-flight list has no
    duplicates and carries exactly the members of the releasing set. -/
def relInv (st : RelTrace) : Prop :=
  st.inFlight.Nodup ∧
  ∀ registrationId, registrationId ∈ st.releasing ↔ registrationId ∈ st.inFlight

/-- The invariant is preserved along every well-formed trace. -/
theorem relInv_run (tr : List TraceEvent) :
    ∀ st : RelTrace, relInv st → relWf st tr = true → relInv (runRel st tr) := by
  induction tr with
  | nil => exact fun st h _ => h
  | cons e es ih =>
      intro st h hwf
      rw [relWf.eq_def, Bool.and_eq_true] at hwf
      have hrun : runRel st (e :: es) = runRel (relStep st e) es := by
        simp [runRel]
      rw [hrun]
      refine ih (relStep st e) ?_ hwf.2
      cases e with
      | start registrationId =>
          have hguard : registrationId ∉ st.releasing := by
            have := hwf.1
            simpa using this
          have hnotin : registrationId ∉ st.inFlight :=
            fun hin => hguard ((h.2 registrationId).mpr hin)
          constructor
          · exact List.nodup_cons.mpr ⟨hnotin, h.1⟩
          · intro x
            simp only [relStep, Finset.mem_insert, List.mem_cons]
            exact or_congr Iff.rfl (h.2 x)
      | finish registrationId =>
          constructor
          · exact h.1.erase registrationId
          · intro x
            simp only [relStep, Finset.mem_erase, h.1.mem_erase_iff]
            exact and_congr Iff.rfl (h.2 x)

/-- Claim C7: along every trace in which a release starts only from an
    enabled button (the id not already busy) and every finish resolves a
    call in flight, the releasing set holds exactly the identifiers whose
    release call has started and not yet resolved, and a busy identifier is
    rendered with a disabled control and the busy label. -/
theorem claim7_busy_set_exact (tr : List TraceEvent)
    (hwf : relWf initialRel tr = true) :
    (∀ registrationId,
        registrationId ∈ (runRel initialRel tr).releasing ↔
          registrationId ∈ (runRel initialRel tr).inFlight) ∧
    (∀ item : StackEntry,
        item.registrationId ∈ (runRel initialRel tr).releasing →
          (renderRow (runRel initialRel tr).releasing item).releaseDisabled = true ∧
          (renderRow (runRel initialRel tr).releasing item).releaseLabel =
            "Releasing...") := by
  have hinv : relInv (runRel initialRel tr) :=
    relInv_run tr initialRel ⟨List.nodup_nil, by simp [initialRel]⟩ hwf
  refine ⟨hinv.2, ?_⟩
  intro item hmem
  exact ⟨by simp [renderRow, hmem], by simp [renderRow, hmem]⟩

/-- Witness for claim C7 at the one-event trace that starts releasing team
    T1. -/
theorem claim7_busy_set_exact_witness :
    "T1" ∈ (runRel initialRel [TraceEvent.start "T1"]).releasing ↔
      "T1" ∈ (runRel initialRel [TraceEvent.start "T1"]).inFlight :=
  (claim7_busy_set_exact [TraceEvent.start "T1"] (by decide)).1 "T1"

/-- Claim C8 counterexample: with toasts shown at times 0 and 2000, the
    timeout scheduled by the first show fires at 5000 and clears the second
    toast after only 3000 ms, not the fixed 5000 ms delay. -/
theorem claim8_counterexample :
    (runToasts [(0, "a"), (2000, "b")]).log = [("a", 0, 2000), ("b", 2000, 5000)] ∧
    5000 - 2000 ≠ toastDelayMs := by
  exact ⟨rfl, by decide⟩

/-- Claim C8 amended: a toast shown with no other show call overlapping is
    dismissed exactly 5000 ms after it is shown; when shows overlap, the
    earlier pending timeout can dismiss a later toast before its own 5000 ms
    elapse, as the counterexample records. -/
theorem claim8_amended_single_toast (t : Nat) (m : String) :
    (runToasts [(t, m)]).log = [(m, t, t + toastDelayMs)] ∧
    (t + toastDelayMs) - t = toastDelayMs := by
  constructor
  · simp [runToasts, toastEvents, mergeEvents, mergeEventsFuel, toastStep,
      toastDelayMs]
  · omega

/-- Witness for the amended claim C8 at a single show call at time 42. -/
theorem claim8_amended_single_toast_witness :
    (runToasts [(42, "done")]).log = [("done", 42, 42 + toastDelayMs)] :=
  (claim8_amended_single_toast 42 "done").1

/-- Claim C9: none of the three handlers lets an exception escape: each
    Except-level handler returns ok on every outcome, including a release
    response with success equal to true and a missing result field, which
    throws inside the try block, is caught, surfaces the error toast and
    still clears the in-flight marker; fetchStack and an accepted clearStack
    always leave the view out of the loading state. -/
theorem claim9_no_exception_escapes :
    (∀ (o : FetchOutcome) (s : PageState),
        fetchStackExc o s = Except.ok (fetchStack o s)) ∧
    (∀ (registrationId : String) (o : ReleaseOutcome) (s : PageState),
        releaseTeamExc registrationId o s =
          Except.ok (releaseTeam registrationId o s)) ∧
    (∀ (confirmed : Bool) (o : ClearOutcome) (s : PageState),
        clearStackExc confirmed o s = Except.ok (clearStack confirmed o s)) ∧
    (∀ (registrationId : String) (errField : Option String)
        (fetchAfter : FetchOutcome) (s : PageState),
        (releaseTeam registrationId
            (ReleaseOutcome.resp ⟨true, none, errField⟩ fetchAfter) s).1.toast =
          some ⟨"Error releasing team " ++ registrationId, ToastType.error⟩ ∧
        registrationId ∉ (releaseTeam registrationId
            (ReleaseOutcome.resp ⟨true, none, errField⟩ fetchAfter) s).1.releasing) ∧
    (∀ (o : FetchOutcome) (s : PageState), (fetchStack o s).1.loading = false) ∧
    (∀ (o : ClearOutcome) (s : PageState), (clearStack true o s).1.loading = false) := by
  refine ⟨fetchStackExc_isOk, releaseTeamExc_isOk, clearStackExc_isOk, ?_, ?_, ?_⟩
  · intro registrationId errField fetchAfter s
    constructor
    · simp [releaseTeam, releaseTeamExc, releaseTryBody, showToastE]
    · simp [releaseTeam, releaseTeamExc, releaseTryBody, showToastE]
  · intro o s
    cases o with
    | thrown => rfl
    | resp r =>
        cases hr : r.success <;>
          simp [fetchStack, fetchStackExc, fetchTryBody, showToastE, hr]
  · intro o s
    cases o with
    | thrown => rfl
    | resp r fetchAfter =>
        cases hr : r.success <;>
          simp [clearStack, clearStackExc, clearTryBody, showToastE, hr]

end ExitOut
